import Mathlib

/-!
Verification of the RecoveredTreasureTX card-collection core against its
specification.  The Python sources (`card_search.py`, `batch_operations.py`,
`analyze_collection.py`, `simple_analysis.py`) are shallowly embedded below:
a Python row dictionary becomes the `Card` structure, Python lists become
`List`, `None`-able keyword arguments become `Option`, Python truthiness is
made explicit, and `float` market values are modelled as exact rationals
(the program only ever compares and copies them).
-/

namespace RecoveredTreasure

/-- Lower-case a string character by character; models Python `str.lower()`
on the ASCII data the program handles. -/
def lowerStr (s : String) : String := ⟨s.data.map Char.toLower⟩

/-- Does `n` occur at the head of `h`?  Helper for substring containment. -/
def leadsList (n h : List Char) : Bool :=
  match n, h with
  | [], _ => true
  | _ :: _, [] => false
  | a :: n', b :: h' => a == b && leadsList n' h'

/-- Does `n` occur contiguously anywhere in `h`?  Models Python

`needle in hay` on strings (the empty needle matches every string). -/
def containsList (n h : List Char) : Bool :=
  match h with
  | [] => leadsList n []
  | _ :: t => leadsList n h || containsList n t

/-- Python `needle in hay` for strings. -/
def strContainsB (hay needle : String) : Bool :=
  containsList needle.toList hay.toList

/-- Python truthiness of an optional string (`None` and `""` are falsy). -/
def truthyS (o : Option String) : Bool :=
  match o with
  | none => false
  | some s => !s.isEmpty

/-- Python truthiness of an optional integer (`None` and `0` are falsy). -/
def truthyI (o : Option Int) : Bool :=
  match o with
  | none => false
  | some y => y != 0

/-- Python truthiness of an optional rational (`None` and `0` are falsy). -/
def truthyQ (o : Option ℚ) : Bool :=
  match o with
  | none => false
  | some v => v != 0

/-- Python slice `l[:n]` for an integer `n`: a non-negative bound keeps the
first `n` elements, a negative bound drops the last `|n|` elements. -/
def pyTake (l : List α) (n : Int) : List α :=
  if 0 ≤ n then l.take n.toNat else l.take (l.length - (-n).toNat)

/-- One row of the collection CSV after `CardSearcher.load_data` has coerced
`market_value` and `year`; all other fields stay strings.  Python dictionary
equality (used by `card in results` in `advanced_search`) is structural
equality of all fields. -/
structure Card where
  collx_id : String
  name : String
  team : String
  year : Int
  brand : String
  set : String
  number : String
  condition : String
  flags : String
  market_value : ℚ
  front_image : String
  back_image : String
  added : String
deriving DecidableEq

/-- Embeds `CardSearcher.search_by_name`. -/
def search_by_name (cards : List Card) (name : String) (exact : Bool) : List Card :=
  cards.filter fun card =>
    if exact then lowerStr card.name == lowerStr name
    else strContainsB (lowerStr card.name) (lowerStr name)

/-- Embeds `CardSearcher.search_by_team`: case-insensitive substring match. -/
def search_by_team (cards : List Card) (team : String) : List Card :=
  cards.filter fun card => strContainsB (lowerStr card.team) (lowerStr team)

/-- Python `year_min and card_year < year_min`: the lower bound only applies
when `year_min` is truthy. -/
def belowMin (ymin : Option Int) (cy : Int) : Bool :=
  match ymin with
  | none => false
  | some v => v != 0 && decide (cy < v)

/-- Python `year_max and card_year > year_max`: the upper bound only applies
when `year_max` is truthy. -/
def aboveMax (ymax : Option Int) (cy : Int) : Bool :=
  match ymax with
  | none => false
  | some v => v != 0 && decide (cy > v)

/-- Embeds `CardSearcher.search_by_year`: an exact `year` (tested with
`is not None`) takes the first branch; otherwise a supplied range bound
selects the range branch; with every argument `None` no card is appended. -/
def search_by_year (cards : List Card) (year ymin ymax : Option Int) : List Card :=
  cards.filter fun card =>
    match year with
    | some y => card.year == y
    | none =>
      if ymin.isSome || ymax.isSome then
        !belowMin ymin card.year && !aboveMax ymax card.year
      else false

/-- Embeds `CardSearcher.search_by_brand`. -/
def search_by_brand (cards : List Card) (brand : String) : List Card :=
  cards.filter fun card => strContainsB (lowerStr card.brand) (lowerStr brand)

/-- Embeds `CardSearcher.search_by_value` (`is not None` tests on both
bounds, inclusive comparisons). -/
def search_by_value (cards : List Card) (minv maxv : Option ℚ) : List Card :=
  cards.filter fun card =>
    !(minv.isSome && decide (card.market_value < minv.getD 0)) &&
    !(maxv.isSome && decide (card.market_value > maxv.getD 0))

/-- Embeds `CardSearcher.search_by_condition`: an empty condition field on a
card is falsy, so such cards never match. -/
def search_by_condition (cards : List Card) (cond : String) : List Card :=
  cards.filter fun card =>
    !card.condition.isEmpty && strContainsB (lowerStr card.condition) (lowerStr cond)

/-- Embeds `CardSearcher.search_rookie_cards`: truthy `flags` containing the
exact substring `RC`. -/
def search_rookie_cards (cards : List Card) : List Card :=
  cards.filter fun card => !card.flags.isEmpty && strContainsB card.flags "RC"

/-- The keyword arguments of `CardSearcher.advanced_search`; an absent
keyword is `none` (`kwargs.get` then yields Python `None`). -/
structure Criteria where
  name : Option String
  exact_name : Bool
  team : Option String
  year : Option Int
  year_min : Option Int
  year_max : Option Int
  brand : Option String
  min_value : Option ℚ
  max_value : Option ℚ
  condition : Option String
  rookie_only : Bool

/-- Criteria with every keyword absent. -/
def emptyCrit : Criteria :=
  ⟨none, false, none, none, none, none, none, none, none, none, false⟩

/-- Embeds `CardSearcher.advanced_search`: starts from a copy of the
collection and repeatedly keeps the cards that are members of each
single-criterion search result (Python `card in xs`, dictionary equality);
each `kwargs.get(...)` guard is Python truthiness. -/
def advanced_search (cards : List Card) (k : Criteria) : List Card :=
  let r0 := cards
  let r1 := if truthyS k.name then
      r0.filter fun c => decide (c ∈ search_by_name cards (k.name.getD "") k.exact_name)
    else r0
  let r2 := if truthyS k.team then
      r1.filter fun c => decide (c ∈ search_by_team cards (k.team.getD ""))
    else r1
  let r3 := if truthyI k.year then
      r2.filter fun c => decide (c ∈ search_by_year cards k.year none none)
    else r2
  let r4 := if truthyI k.year_min || truthyI k.year_max then
      r3.filter fun c => decide (c ∈ search_by_year cards none k.year_min k.year_max)
    else r3
  let r5 := if truthyS k.brand then
      r4.filter fun c => decide (c ∈ search_by_brand cards (k.brand.getD ""))
    else r4
  let r6 := if truthyQ k.min_value || truthyQ k.max_value then
      r5.filter fun c => decide (c ∈ search_by_value cards k.min_value k.max_value)
    else r5
  let r7 := if truthyS k.condition then
      r6.filter fun c => decide (c ∈ search_by_condition cards (k.condition.getD ""))
    else r6
  let r8 := if k.rookie_only then
      r7.filter fun c => decide (c ∈ search_rookie_cards cards)
    else r7
  r8

/-- Stable insertion into an already-sorted list: the incoming element stops
in front of the first element `b` with `le a b`, hence in front of every
element tied with it. -/
def insertStable (le : Card → Card → Bool) (a : Card) : List Card → List Card
  | [] => [a]
  | b :: l => if le a b then a :: b :: l else b :: insertStable le a l

/-- Stable sort by the total preorder `le`.  Python `list.sort` is documented
stable, and a stable sort under a total preorder is extensionally unique, so
insertion sort is a faithful model of it. -/
def stableSortBy (le : Card → Card → Bool) : List Card → List Card
  | [] => []
  | a :: l => insertStable le a (stableSortBy le l)

/-- Lexicographic order on character lists by code point; models Python
string comparison used by the string sort keys. -/
def charListLe : List Char → List Char → Bool
  | [], _ => true
  | _ :: _, [] => false
  | a :: s, b :: t => if a == b then charListLe s t else decide (a.val < b.val)

/-- Comparison `le a b` ("a may precede b") derived from a key, honouring the
`reverse=descending` flag of `list.sort`. -/
def keyLeQ (key : Card → ℚ) (descending : Bool) (a b : Card) : Bool :=
  if descending then decide (key b ≤ key a) else decide (key a ≤ key b)

/-- String-key variant of `keyLeQ`. -/
def keyLeS (key : Card → String) (descending : Bool) (a b : Card) : Bool :=
  if descending then charListLe (key b).toList (key a).toList
  else charListLe (key a).toList (key b).toList

/-- Embeds `CardSearcher.sort_results`: a stable sort by the selected key,
descending when `descending` is set; an unknown key leaves the list as is. -/
def sort_results (results : List Card) (sort_by : String) (descending : Bool) : List Card :=
  if sort_by == "value" then stableSortBy (keyLeQ (·.market_value) descending) results
  else if sort_by == "year" then
    stableSortBy (fun a b =>
      if descending then decide (b.year ≤ a.year) else decide (a.year ≤ b.year)) results
  else if sort_by == "name" then stableSortBy (keyLeS (fun c => lowerStr c.name) descending) results
  else if sort_by == "team" then stableSortBy (keyLeS (fun c => lowerStr c.team) descending) results
  else if sort_by == "brand" then stableSortBy (keyLeS (fun c => lowerStr c.brand) descending) results
  else results

/-- Embeds the result-limiting step of `CardSearcher.format_results`:
`if limit: results = results[:limit]` — the slice is applied only when
`limit` is truthy (present and non-zero). -/
def limitResults (results : List Card) (limit : Option Int) : List Card :=
  match limit with
  | none => results
  | some n => if n != 0 then pyTake results n else results

/-- Embeds `BatchOperations.select_cards_for_sale`: drop cards under
`min_value`; with `exclude_favorites`, drop cards over 500, rookies over 100
and pre-1981 cards over 50; keep only Mint / Near Mint / Excellent; sort by
value descending and slice to `max_cards`. -/
def select_cards_for_sale (cards : List Card) (min_value : ℚ) (max_cards : Int)
    (exclude_favorites : Bool) : List Card :=
  let candidates := cards.filter fun card =>
    if decide (card.market_value < min_value) then false
    else if exclude_favorites && decide (card.market_value > 500) then false
    else if exclude_favorites && (!card.flags.isEmpty && strContainsB card.flags "RC"
        && decide (card.market_value > 100)) then false
    else if exclude_favorites && (decide (card.year ≤ 1980)
        && decide (card.market_value > 50)) then false
    else decide (card.condition ∈ (["Mint", "Near Mint", "Excellent"] : List String))
  pyTake (stableSortBy (keyLeQ (·.market_value) true) candidates) max_cards

/-- Embeds `BatchOperations._categorize_value`. -/
def categorize_value (value : ℚ) : String :=
  if value ≥ 100 then "High Value ($100+)"
  else if value ≥ 20 then "Medium Value ($20-$99)"
  else if value ≥ 5 then "Low Value ($5-$19)"
  else "Minimal Value (<$5)"

/-- The franchise set hardcoded in `BatchOperations._determine_sport`
(28 teams). -/
def footballTeamsBatch : List String :=
  ["Kansas City Chiefs", "Houston Texans", "Minnesota Vikings", "New England Patriots",
   "Carolina Panthers", "Los Angeles Rams", "New York Giants", "Baltimore Ravens",
   "New York Jets", "Detroit Lions", "Tampa Bay Buccaneers", "Pittsburgh Steelers",
   "Jacksonville Jaguars", "Washington Redskins", "Dallas Cowboys", "Indianapolis Colts",
   "Green Bay Packers", "Philadelphia Eagles", "Miami Dolphins", "Buffalo Bills",
   "Oakland Raiders", "Cleveland Browns", "Seattle Seahawks", "Arizona Cardinals",
   "Los Angeles Raiders", "Phoenix Cardinals", "San Francisco 49ers", "Denver Broncos"]

/-- The six franchises present in `analyze_collection.py`'s set but absent
from `BatchOperations._determine_sport`'s set. -/
def extraFootballTeams : List String :=
  ["Cincinnati Bengals", "Tennessee Titans", "Atlanta Falcons", "Chicago Bears",
   "Los Angeles Chargers", "Las Vegas Raiders"]

/-- The franchise set hardcoded in `analyze_collection.py` (34 teams): the
batch set followed by six more; Python set membership ignores order. -/
def footballTeamsAnalyze : List String :=
  footballTeamsBatch ++ extraFootballTeams

/-- Embeds `BatchOperations._determine_sport`. -/
def determine_sport (team : String) : String :=
  if team ∈ footballTeamsBatch then "Football" else "Baseball"

/-- The sport classification induced by membership in `analyze_collection.py`'s
`football_teams` set (`df['team'].isin(football_teams)` splits the frame into
Football and Baseball rows). -/
def analyzeSport (team : String) : String :=
  if team ∈ footballTeamsAnalyze then "Football" else "Baseball"

/-- Era bucket predicate `year <= 1999` from the analysis scripts. -/
def isVintage (y : Int) : Bool := decide (y ≤ 1999)

/-- Era bucket predicate `2000 <= year <= 2009`. -/
def isEarly2000s (y : Int) : Bool := decide (2000 ≤ y) && decide (y ≤ 2009)

/-- Era bucket predicate `2010 <= year <= 2019`. -/
def isModern2010s (y : Int) : Bool := decide (2010 ≤ y) && decide (y ≤ 2019)

/-- Era bucket predicate `year >= 2020`. -/
def isRecent2020s (y : Int) : Bool := decide (2020 ≤ y)

/-- Era names, one per bucket of the analysis scripts. -/
inductive Era where
  | Vintage
  | Early2000s
  | Modern2010s
  | Recent2020s
deriving DecidableEq

/-- The era classification induced by the four bucket predicates of
`simple_analysis.py` / `analyze_collection.py` (the buckets are mutually
exclusive and exhaustive, which the theorems below establish). -/
def era (y : Int) : Era :=
  if isVintage y then .Vintage
  else if isEarly2000s y then .Early2000s
  else if isModern2010s y then .Modern2010s
  else .Recent2020s

/-- A card with every field blank and numeric fields zero. -/
def blankCard : Card :=
  ⟨"", "", "", 0, "", "", "", "", "", 0, "", "", ""⟩

/-- Card A of the end-to-end selection scenario: 1985, value 60, Mint. -/
def sampleA : Card :=
  ⟨"", "A", "", 1985, "", "", "", "Mint", "", 60, "", "", ""⟩

/-- Card B of the end-to-end selection scenario: 2015, value 30, Excellent,
a rookie card. -/
def sampleB : Card :=
  ⟨"", "B", "", 2015, "", "", "", "Excellent", "RC", 30, "", "", ""⟩

/-- Card C of the end-to-end selection scenario: 2021, value 15, Near Mint. -/
def sampleC : Card :=
  ⟨"", "C", "", 2021, "", "", "", "Near Mint", "", 15, "", "", ""⟩

/-- A card from 2015, used to witness the year-criteria resolution. -/
def sample2015 : Card :=
  ⟨"", "D", "", 2015, "", "", "", "", "", 0, "", "", ""⟩

/-- Criteria carrying only the year fields, as `advanced_search` receives
them when an exact year and/or a range is supplied. -/
def yearRangeCrit (y : Int) (ymin ymax : Option Int) : Criteria :=
  ⟨none, false, none, some y, ymin, ymax, none, none, none, none, false⟩

/-- Criteria of the team plus minimum-value search. -/
def teamValueCrit : Criteria :=
  ⟨none, false, some "Cowboys", none, none, none, none, some 10, none, none, false⟩

/-- Cards kept by a membership test against `cards.filter p` are exactly
those satisfying `p`, whenever the scanned list only holds cards of the
collection: Python `card in results` is dictionary equality, and every
predicate of the program depends only on the card's fields. -/
theorem mem_filter_collapse (cards l : List Card) (hsub : ∀ c, c ∈ l → c ∈ cards)
    (p : Card → Bool) :
    (l.filter fun c => decide (c ∈ cards.filter p)) = l.filter p := by
  apply List.filter_congr
  intro c hc
  by_cases hp : p c = true
  · simp [List.mem_filter, hsub c hc, hp]
  · simp [List.mem_filter, hp]

/-- A truthy optional integer is present. -/
theorem truthyI_isSome (o : Option Int) (h : truthyI o = true) : o.isSome = true := by
  cases o with
  | none => simp [truthyI] at h
  | some v => rfl

/-- Filtering commutes with a stable insertion whose pivot can only stop
early behind elements the filter drops. -/
theorem filter_insertStable (le : Card → Card → Bool) (p : Card → Bool) (a : Card)
    (hstop : p a = true → ∀ b, le a b = false → p b = false) (l : List Card) :
    (insertStable le a l).filter p = if p a then a :: l.filter p else l.filter p := by
  induction l with
  | nil => simp [insertStable, List.filter_cons]
  | cons b t ih =>
    by_cases hab : le a b = true
    · simp only [insertStable, hab, if_true, List.filter_cons]
    · simp only [insertStable, hab, if_false, Bool.false_eq_true, List.filter_cons, ih]
      by_cases hpa : p a = true
      · have hpb : p b = false := hstop hpa b (by simp [hab])
        simp [hpa, hpb]
      · simp [hpa]

/-- Stability of the sort: the subsequence selected by a filter whose
members are pairwise tied under `le` is untouched by sorting. -/
theorem stableSortBy_filter (le : Card → Card → Bool) (p : Card → Bool)
    (htie : ∀ a b, p a = true → p b = true → le a b = true) (l : List Card) :
    (stableSortBy le l).filter p = l.filter p := by
  induction l with
  | nil => rfl
  | cons a t ih =>
    have hstop : p a = true → ∀ b, le a b = false → p b = false := by
      intro hpa b hlab
      by_contra hpb
      have := htie a b hpa (by simpa using hpb)
      simp [this] at hlab
    rw [stableSortBy, filter_insertStable le p a hstop, ih, List.filter_cons]

/-- C9: sorting by value in either direction is stable — the cards holding
any given market value keep their input order. -/
theorem C9_sort_value_stable (l : List Card) (v : ℚ) (descending : Bool) :
    (sort_results l "value" descending).filter (fun c => decide (c.market_value = v)) =
      l.filter (fun c => decide (c.market_value = v)) := by
  have e : sort_results l "value" descending =
      stableSortBy (keyLeQ (·.market_value) descending) l := rfl
  rw [e]
  apply stableSortBy_filter
  intro a b ha hb
  simp only [decide_eq_true_eq] at ha hb
  cases descending <;> simp [keyLeQ, ha, hb]

/-- C10: `search_by_year` with every argument absent returns nothing, not
the whole collection. -/
theorem C10_search_by_year_empty (cards : List Card) :
    search_by_year cards none none none = [] := by
  have e : search_by_year cards none none none = cards.filter fun _ => false := rfl
  rw [e]
  exact List.filter_false cards

/-- C8: an advanced search with no criteria returns the collection as is. -/
theorem C8_advanced_search_id (cards : List Card) :
    advanced_search cards emptyCrit = cards := rfl

/-- C6: the era buckets of the analysis scripts classify exactly by the
stated year ranges, and the unparseable-year value 0 lands in Vintage. -/
theorem C6_era_buckets :
    (∀ y : Int,
      ((era y = Era.Vintage) ↔ y ≤ 1999) ∧
      ((era y = Era.Early2000s) ↔ 2000 ≤ y ∧ y ≤ 2009) ∧
      ((era y = Era.Modern2010s) ↔ 2010 ≤ y ∧ y ≤ 2019) ∧
      ((era y = Era.Recent2020s) ↔ 2020 ≤ y)) ∧
    era 0 = Era.Vintage := by
  refine ⟨fun y => ?_, by decide⟩
  unfold era isVintage isEarly2000s isModern2010s
  split_ifs with h1 h2 h3 <;>
    simp only [Bool.and_eq_true, decide_eq_true_eq] at * <;>
    refine ⟨?_, ?_, ?_, ?_⟩ <;> simp <;> omega

/-- C5: the value tiers of `_categorize_value` classify exactly by the
stated bounds, with the six boundary values landing as stated. -/
theorem C5_value_tiers :
    (∀ v : ℚ,
      ((categorize_value v = "High Value ($100+)") ↔ 100 ≤ v) ∧
      ((categorize_value v = "Medium Value ($20-$99)") ↔ 20 ≤ v ∧ v < 100) ∧
      ((categorize_value v = "Low Value ($5-$19)") ↔ 5 ≤ v ∧ v < 20) ∧
      ((categorize_value v = "Minimal Value (<$5)") ↔ v < 5)) ∧
    categorize_value 100 = "High Value ($100+)" ∧
    categorize_value 99.99 = "Medium Value ($20-$99)" ∧
    categorize_value 20 = "Medium Value ($20-$99)" ∧
    categorize_value 19.99 = "Low Value ($5-$19)" ∧
    categorize_value 5 = "Low Value ($5-$19)" ∧
    categorize_value 4.99 = "Minimal Value (<$5)" := by
  refine ⟨fun v => ?_, ?_, ?_, ?_, ?_, ?_, ?_⟩
  · unfold categorize_value
    split_ifs with h1 h2 h3 <;>
      refine ⟨?_, ?_, ?_, ?_⟩ <;> simp <;>
      first
        | linarith
        | (constructor <;> linarith)
        | (intro hx; linarith)
  all_goals norm_num [categorize_value]

/-- C1 counterexample: on the three scenario cards the selection does not
return `[B, C]` — card A passes every filter. -/
theorem C1_counterexample :
    select_cards_for_sale [sampleA, sampleB, sampleC] 10 50 true ≠ [sampleB, sampleC] := by
  decide

/-- C1 amended: with `min_value = 10`, `exclude_favorites = true` and any
`max_cards ≥ 3`, the selection returns all three cards in descending value
order: `[A, B, C]`. -/
theorem C1_amended (m : Int) (hm : 3 ≤ m) :
    select_cards_for_sale [sampleA, sampleB, sampleC] 10 m true =
      [sampleA, sampleB, sampleC] := by
  have e : select_cards_for_sale [sampleA, sampleB, sampleC] 10 m true =
      pyTake [sampleA, sampleB, sampleC] m := rfl
  rw [e]
  unfold pyTake
  rw [if_pos (by omega : (0:Int) ≤ m)]
  apply List.take_of_length_le
  simp
  omega

/-- C1 witness: the amended statement at `max_cards = 50`. -/
theorem C1_witness :
    select_cards_for_sale [sampleA, sampleB, sampleC] 10 50 true =
      [sampleA, sampleB, sampleC] :=
  C1_amended 50 (by decide)

/-- C3 counterexample: the two hardcoded franchise sets disagree on the
Chicago Bears. -/
theorem C3_counterexample :
    determine_sport "Chicago Bears" ≠ analyzeSport "Chicago Bears" := by decide

/-- C3 amended: outside the six franchises present only in
`analyze_collection.py`'s set, the two classifiers agree. -/
theorem C3_amended (t : String) (ht : t ∉ extraFootballTeams) :
    determine_sport t = analyzeSport t := by
  unfold determine_sport analyzeSport footballTeamsAnalyze
  by_cases h : t ∈ footballTeamsBatch
  · rw [if_pos h, if_pos (List.mem_append.mpr (Or.inl h))]
  · rw [if_neg h, if_neg fun hc => (List.mem_append.mp hc).elim h ht]

/-- C3 witness: both classifiers call the Yankees a Baseball team. -/
theorem C3_witness :
    determine_sport "New York Yankees" = analyzeSport "New York Yankees" :=
  C3_amended "New York Yankees" (by decide)

/-- C4 counterexample: a negative limit is truthy in Python, so `-1` drops
the last element instead of keeping everything. -/
theorem C4_counterexample :
    limitResults [sampleA, sampleB] (some (-1)) ≠ [sampleA, sampleB] := by decide

/-- C4 amended: an unset or zero cap keeps every result, a positive cap
keeps the first `n`, and a negative cap drops the last `|n|` elements
(Python slice semantics). -/
theorem C4_amended (l : List Card) (n : Int) :
    limitResults l none = l ∧
    limitResults l (some 0) = l ∧
    (0 < n → limitResults l (some n) = l.take n.toNat) ∧
    (n < 0 → limitResults l (some n) = l.take (l.length - (-n).toNat)) := by
  refine ⟨rfl, rfl, ?_, ?_⟩
  · intro hn
    have h1 : (n != 0) = true := by simp [bne_iff_ne]; omega
    have h2 : (0:Int) ≤ n := le_of_lt hn
    simp [limitResults, h1, pyTake, h2]
  · intro hn
    have h1 : (n != 0) = true := by simp [bne_iff_ne]; omega
    have h2 : ¬ ((0:Int) ≤ n) := by omega
    simp [limitResults, h1, pyTake, h2]

/-- C4 witness: the amended statement at limit 1 on a two-card list. -/
theorem C4_witness :
    limitResults [sampleA, sampleB] (some 1) = [sampleA] := by
  have h := (C4_amended [sampleA, sampleB] 1).2.2.1 (by decide)
  simpa using h

/-- C2 counterexample: supplying a range next to an exact year changes the
result — the filters conjoin instead of the exact year taking precedence. -/
theorem C2_counterexample :
    advanced_search [sample2015] (yearRangeCrit 2015 (some 2016) none) ≠
      advanced_search [sample2015] (yearRangeCrit 2015 none none) := by decide

/-- C2 amended: with a truthy exact year and a truthy range bound, the
search applies both constraints with AND semantics, deterministically. -/
theorem C2_amended (cards : List Card) (y : Int) (ymin ymax : Option Int)
    (hy : y ≠ 0) (hr : (truthyI ymin || truthyI ymax) = true) :
    advanced_search cards (yearRangeCrit y ymin ymax) =
      cards.filter fun c =>
        (!belowMin ymin c.year && !aboveMax ymax c.year) && (c.year == y) := by
  have hy' : truthyI (some y) = true := by simp [truthyI, bne_iff_ne, hy]
  have hsome : (ymin.isSome || ymax.isSome) = true := by
    rcases Bool.or_eq_true_iff.mp hr with h | h
    · simp [truthyI_isSome ymin h]
    · simp [truthyI_isSome ymax h]
  have e : advanced_search cards (yearRangeCrit y ymin ymax) =
      if (truthyI ymin || truthyI ymax) = true then
        ((if truthyI (some y) = true then
            cards.filter fun c => decide (c ∈ search_by_year cards (some y) none none)
          else cards).filter fun c => decide (c ∈ search_by_year cards none ymin ymax))
      else (if truthyI (some y) = true then
            cards.filter fun c => decide (c ∈ search_by_year cards (some y) none none)
          else cards) := rfl
  rw [e]
  simp only [hy', hr, if_true]
  have e1 : search_by_year cards (some y) none none =
      cards.filter fun c => c.year == y := rfl
  have e2 : search_by_year cards none ymin ymax =
      cards.filter fun c =>
        if (ymin.isSome || ymax.isSome) = true then
          !belowMin ymin c.year && !aboveMax ymax c.year
        else false := rfl
  rw [e1, mem_filter_collapse cards cards (fun _ h => h), e2]
  have e3 : (cards.filter fun c =>
        if (ymin.isSome || ymax.isSome) = true then
          !belowMin ymin c.year && !aboveMax ymax c.year
        else false)
      = cards.filter fun c => !belowMin ymin c.year && !aboveMax ymax c.year := by
    apply List.filter_congr
    intro c _
    rw [hsome]
    simp
  rw [e3, mem_filter_collapse cards _ (fun c h => List.mem_of_mem_filter h),
      List.filter_filter]

/-- C2 witness: the amended statement on a one-card collection, where the
conjoined range bound removes the exact-year match. -/
theorem C2_witness :
    advanced_search [sample2015] (yearRangeCrit 2015 (some 2016) none) = [] := by
  rw [C2_amended [sample2015] 2015 (some 2016) none (by decide) (by decide)]
  decide

/-- C7: the team plus minimum-value search keeps exactly the cards whose
team contains "cowboys" case-insensitively and whose value is at least 10,
as a single order-preserving filter pass. -/
theorem C7_team_value (cards : List Card) :
    advanced_search cards teamValueCrit =
      cards.filter fun c =>
        strContainsB (lowerStr c.team) "cowboys" && decide (10 ≤ c.market_value) := by
  have e : advanced_search cards teamValueCrit =
      ((cards.filter fun c => decide (c ∈ search_by_team cards "Cowboys")).filter
        fun c => decide (c ∈ search_by_value cards (some 10) none)) := rfl
  have e1 : search_by_team cards "Cowboys" =
      cards.filter fun c => strContainsB (lowerStr c.team) (lowerStr "Cowboys") := rfl
  have e2 : search_by_value cards (some 10) none =
      cards.filter fun c => !decide (c.market_value < 10) && true := rfl
  rw [e, e1, mem_filter_collapse cards cards (fun _ h => h), e2,
      mem_filter_collapse cards _ (fun c h => List.mem_of_mem_filter h),
      List.filter_filter]
  apply List.filter_congr
  intro c _
  have hl : lowerStr "Cowboys" = "cowboys" := by decide
  rw [hl]
  by_cases h : c.market_value < 10
  · simp [h, not_le.mpr h]
  · simp [h, not_lt.mp h]


end RecoveredTreasure
